import Mathlib

/-!
Verification of the alphavantage-api-client repository: a shallow embedding of
`src/alphavantage/client.py` and `src/alphavantage/models.py` in Lean 4, with
theorems settling the specification claims about the request dispatcher
(`AlphaVantageClient._make_request` and the endpoint operations) and the
response mapping layer (the pydantic models with their field validators).

Modelling conventions:
* Machine floating point is modelled by exact rationals (`Q` below, a
  normalized `Int`/`Nat` pair) extended with signed infinity and NaN
  (`PyVal`).  CPython rounds decimal literals to the nearest binary double
  and overflows huge exponents to infinity; neither rounding nor overflow is
  observable in any claim (all concrete inputs are short exact decimals), so
  the value of a parsed literal is kept exact.
* JSON payloads are the inductive `Json` type; decoded Python dicts are
  association lists in insertion order with unique keys.
* A raised Python exception is an `Except.error` / `Option.none` value.
-/

/-- Exact rational value: `num / den`, kept normalized (gcd 1, positive
denominator) by constructing only through `Q.mk'`. Stands in for a CPython
`float` whose value is an exact decimal. -/
structure Q where
  num : Int
  den : Nat
deriving DecidableEq, Repr

/-- Normalizing constructor: reduces `n / d` by the gcd. (`d` is expected
positive; every use below passes a power of ten or `1`.) -/
def Q.mk' (n : Int) (d : Nat) : Q :=
  let g := Nat.gcd n.natAbs d
  ⟨n / (g : Int), d / g⟩

/-- Negation of a normalized rational (stays normalized). -/
def Q.neg (q : Q) : Q := ⟨-q.num, q.den⟩

/-- Result of CPython `float(str)`: a finite value, a signed infinity
(`inf`, `infinity` spellings) or NaN. -/
inductive PyVal where
  | finite (q : Q)
  | inf (neg : Bool)
  | nan
deriving DecidableEq, Repr

/-- Ten to the power of the argument. -/
def pow10 (n : Nat) : Nat := 10 ^ n

/-- Whitespace stripped by CPython `float(str)` (`Py_ISSPACE`). -/
def isPySpace (c : Char) : Bool :=
  c = ' ' ∨ c = '\t' ∨ c = '\n' ∨ c = '\r' ∨ c = '\x0b' ∨ c = '\x0c'

/-- Strip leading and trailing whitespace. -/
def pyStrip (l : List Char) : List Char :=
  ((l.dropWhile isPySpace).reverse.dropWhile isPySpace).reverse

/-- Numeric value of a digit character. -/
def dval (c : Char) : Nat := c.toNat - 48

/-- Continue scanning a digit run that may contain single underscores
between digits (PEP 515, as accepted by `float`/`int`). Returns the
accumulated value, the number of digits seen, and the unconsumed rest
(a malformed underscore is left unconsumed, so the whole parse later fails
on leftover input, matching CPython). -/
def digitsUAux (acc ndigits : Nat) : List Char → Nat × Nat × List Char
  | [] => (acc, ndigits, [])
  | '_' :: d :: rest2 =>
    if d.isDigit then digitsUAux (acc * 10 + dval d) (ndigits + 1) rest2
    else (acc, ndigits, '_' :: d :: rest2)
  | c :: rest =>
    if c.isDigit then digitsUAux (acc * 10 + dval c) (ndigits + 1) rest
    else (acc, ndigits, c :: rest)

/-- Scan a digit run (must start with a digit; underscores allowed between
digits). `none` when the input does not start with a digit. -/
def digitsU : List Char → Option (Nat × Nat × List Char)
  | c :: rest => if c.isDigit then some (digitsUAux (dval c) 1 rest) else none
  | [] => none

/-- Case-insensitive match of an (all-lowercase) pattern against the input,
returning the unconsumed rest on success. -/
def matchCI : List Char → List Char → Option (List Char)
  | [], rest => some rest
  | p :: ps, c :: cs => if c.toLower = p then matchCI ps cs else none
  | _ :: _, [] => none

/-- Combine a scanned mantissa `m` with `fdigits` fractional digits and a
decimal exponent `e` into the exact value `m / 10^fdigits * 10^e`. -/
def applyExp (m : Int) (fdigits : Nat) (e : Int) : Q :=
  if (fdigits : Int) ≤ e then Q.mk' (m * ((pow10 (e - (fdigits : Int)).toNat : Nat) : Int)) 1
  else Q.mk' m (pow10 (((fdigits : Int) - e).toNat))

/-- Parse the optional exponent suffix `[eE][+-]?digits`; yields exponent `0`
without consuming anything when no `e`/`E` is present, and `none` when an
`e`/`E` is present but not followed by digits (CPython rejects those). -/
def parseExpPart : List Char → Option (Int × List Char)
  | c :: rest =>
    if c = 'e' ∨ c = 'E' then
      match rest with
      | '+' :: r2 =>
        match digitsU r2 with
        | some (v, _, r3) => some (((v : Nat) : Int), r3)
        | none => none
      | '-' :: r2 =>
        match digitsU r2 with
        | some (v, _, r3) => some (-((v : Nat) : Int), r3)
        | none => none
      | r2 =>
        match digitsU r2 with
        | some (v, _, r3) => some (((v : Nat) : Int), r3)
        | none => none
    else some (0, c :: rest)
  | [] => some (0, [])

/-- Parse an unsigned decimal literal `digits [. digits] [exp]` (at least one
digit overall required), consuming the whole input. Mirrors the CPython
`float(str)` grammar after sign handling. -/
def pyFloatNum (l : List Char) : Option Q :=
  let s1 := match digitsU l with
    | some (v, n, r) => (v, n, r)
    | none => (0, 0, l)
  match s1 with
  | (ipart, ni, r1) =>
    match r1 with
    | '.' :: r2 =>
      let s2 := match digitsU r2 with
        | some (v, n, r) => (v, n, r)
        | none => (0, 0, r2)
      match s2 with
      | (fpart, nf, r3) =>
        if ni + nf = 0 then none
        else
          match parseExpPart r3 with
          | some (e, r4) =>
            if r4 = [] then some (applyExp (((ipart * pow10 nf + fpart : Nat) : Nat) : Int) nf e)
            else none
          | none => none
    | _ =>
      if ni = 0 then none
      else
        match parseExpPart r1 with
        | some (e, r4) =>
          if r4 = [] then some (applyExp ((ipart : Nat) : Int) 0 e) else none
        | none => none

/-- CPython `float(str)` on a character list: strip whitespace, optional
sign, then `inf`/`infinity`/`nan` (case-insensitive) or a decimal literal. -/
def pyFloatChars (l0 : List Char) : Option PyVal :=
  let l := pyStrip l0
  let signed : Bool × List Char := match l with
    | '+' :: r => (false, r)
    | '-' :: r => (true, r)
    | r => (false, r)
  match signed with
  | (neg, l1) =>
    match matchCI ['i', 'n', 'f', 'i', 'n', 'i', 't', 'y'] l1 with
    | some [] => some (.inf neg)
    | _ =>
      match matchCI ['i', 'n', 'f'] l1 with
      | some [] => some (.inf neg)
      | _ =>
        match matchCI ['n', 'a', 'n'] l1 with
        | some [] => some .nan
        | _ =>
          match pyFloatNum l1 with
          | some q => some (.finite (if neg then Q.neg q else q))
          | none => none

/-- CPython `float(str)` on a `String`; `none` models a raised `ValueError`. -/
def pyFloatQ (s : String) : Option PyVal := pyFloatChars s.data

/-- Python `str.rstrip(c)`: remove every trailing occurrence of `c`. -/
def rstripChar (c : Char) (l : List Char) : List Char :=
  (l.reverse.dropWhile (fun d => d = c)).reverse

/-- Python `v.rstrip('%')` on a string. -/
def rstripPercent (s : String) : String := String.mk (rstripChar '%' s.data)

/-- Model of `TopGainerLoser.parse_percentage` (models.py:356-365) applied to a string
argument: `float(v.rstrip('%'))`, with `none` modelling the re-raised
`ValueError("Invalid percentage format: ...")`. -/
def parse_percentage (s : String) : Option PyVal := pyFloatQ (rstripPercent s)

/-!
Section: the model of datetime.strptime(v, "%Y%m%dT%H%M%S")

CPython's `_strptime` compiles the format into a regex (with `re.IGNORECASE`)
built from per-directive patterns
(`%Y` → `\d\d\d\d`, `%m` → `1[0-2]|0[1-9]|[1-9]`, `%d` → `3[01]|[12]\d|0[1-9]|[1-9]`,
`%H` → `2[0-3]|[0-1]\d|\d`, `%M` → `[0-5]\d|\d`, `%S` → `6[0-1]|[0-5]\d|\d`),
anchors the match at the start and rejects unconverted trailing data.  The
matcher below reproduces that regex with left-to-right alternative priority
and full backtracking (continuation-passing), then applies the `datetime`
constructor's range checks (year ≥ 1, day within the month, second ≤ 59). -/

/-- A parsed naive `datetime.datetime` value. -/
structure PyDateTime where
  year : Nat
  month : Nat
  day : Nat
  hour : Nat
  minute : Nat
  second : Nat
deriving DecidableEq, Repr

/-- Is `c` an ASCII digit in the inclusive range `lo`–`hi`? -/
def digitIn (lo hi c : Char) : Bool := lo ≤ c ∧ c ≤ hi

/-- Run the regex alternatives of one directive against the input, in
priority order, with backtracking into the continuation `k` (exactly the
Python `re` semantics for an alternation). -/
def runAlts (alts : List (List Char → Option (Nat × List Char))) (s : List Char)
    (k : Nat → List Char → Option PyDateTime) : Option PyDateTime :=
  match alts with
  | [] => none
  | a :: as =>
    match a s with
    | some (v, r) =>
      match k v r with
      | some dt => some dt
      | none => runAlts as s k
    | none => runAlts as s k

/-- Month directive alternatives: `1[0-2]`, `0[1-9]`, `[1-9]`. -/
def monthAlts : List (List Char → Option (Nat × List Char)) :=
  [fun l => match l with
    | '1' :: c :: r => if digitIn '0' '2' c then some (10 + dval c, r) else none
    | _ => none,
   fun l => match l with
    | '0' :: c :: r => if digitIn '1' '9' c then some (dval c, r) else none
    | _ => none,
   fun l => match l with
    | c :: r => if digitIn '1' '9' c then some (dval c, r) else none
    | _ => none]

/-- Day directive alternatives: `3[01]`, `[12]\d`, `0[1-9]`, `[1-9]`. -/
def dayAlts : List (List Char → Option (Nat × List Char)) :=
  [fun l => match l with
    | '3' :: c :: r => if digitIn '0' '1' c then some (30 + dval c, r) else none
    | _ => none,
   fun l => match l with
    | c1 :: c2 :: r =>
      if digitIn '1' '2' c1 ∧ c2.isDigit then some (10 * dval c1 + dval c2, r) else none
    | _ => none,
   fun l => match l with
    | '0' :: c :: r => if digitIn '1' '9' c then some (dval c, r) else none
    | _ => none,
   fun l => match l with
    | c :: r => if digitIn '1' '9' c then some (dval c, r) else none
    | _ => none]

/-- Hour directive alternatives: `2[0-3]`, `[0-1]\d`, `\d`. -/
def hourAlts : List (List Char → Option (Nat × List Char)) :=
  [fun l => match l with
    | '2' :: c :: r => if digitIn '0' '3' c then some (20 + dval c, r) else none
    | _ => none,
   fun l => match l with
    | c1 :: c2 :: r =>
      if digitIn '0' '1' c1 ∧ c2.isDigit then some (10 * dval c1 + dval c2, r) else none
    | _ => none,
   fun l => match l with
    | c :: r => if c.isDigit then some (dval c, r) else none
    | _ => none]

/-- Minute directive alternatives: `[0-5]\d`, `\d`. -/
def minuteAlts : List (List Char → Option (Nat × List Char)) :=
  [fun l => match l with
    | c1 :: c2 :: r =>
      if digitIn '0' '5' c1 ∧ c2.isDigit then some (10 * dval c1 + dval c2, r) else none
    | _ => none,
   fun l => match l with
    | c :: r => if c.isDigit then some (dval c, r) else none
    | _ => none]

/-- Second directive alternatives: `6[0-1]`, `[0-5]\d`, `\d`. -/
def secondAlts : List (List Char → Option (Nat × List Char)) :=
  [fun l => match l with
    | '6' :: c :: r => if digitIn '0' '1' c then some (60 + dval c, r) else none
    | _ => none,
   fun l => match l with
    | c1 :: c2 :: r =>
      if digitIn '0' '5' c1 ∧ c2.isDigit then some (10 * dval c1 + dval c2, r) else none
    | _ => none,
   fun l => match l with
    | c :: r => if c.isDigit then some (dval c, r) else none
    | _ => none]

/-- Is `y` a Gregorian leap year? (`calendar.isleap`.) -/
def isLeap (y : Nat) : Bool := y % 4 = 0 ∧ (y % 100 ≠ 0 ∨ y % 400 = 0)

/-- Days in month `m` of year `y` (months 1–12). -/
def daysInMonth (y m : Nat) : Nat :=
  if m = 2 then (if isLeap y then 29 else 28)
  else if m = 4 ∨ m = 6 ∨ m = 9 ∨ m = 11 then 30
  else 31

/-- The full `strptime` match for format `"%Y%m%dT%H%M%S"` on a character
list: `%Y` is exactly four digits, the literal `T` matches case-insensitively
(the compiled regex carries `re.IGNORECASE`), the input must be consumed
entirely, and finally the `datetime` constructor's checks apply. -/
def strptimeYmdTHMS (l : List Char) : Option PyDateTime :=
  match l with
  | c1 :: c2 :: c3 :: c4 :: rest =>
    if c1.isDigit ∧ c2.isDigit ∧ c3.isDigit ∧ c4.isDigit then
      let y := ((dval c1 * 10 + dval c2) * 10 + dval c3) * 10 + dval c4
      runAlts monthAlts rest fun mo r2 =>
      runAlts dayAlts r2 fun d r3 =>
      match r3 with
      | t :: r4 =>
        if t = 'T' ∨ t = 't' then
          runAlts hourAlts r4 fun h r5 =>
          runAlts minuteAlts r5 fun mi r6 =>
          runAlts secondAlts r6 fun sec r7 =>
          if r7 = [] ∧ 1 ≤ y ∧ d ≤ daysInMonth y mo ∧ sec ≤ 59 then
            some ⟨y, mo, d, h, mi, sec⟩
          else none
        else none
      | [] => none
    else none
  | _ => none

/-- Model of `NewsSentiment.parse_timestamp` (models.py:309-318) applied to a string
argument: `datetime.strptime(v, "%Y%m%dT%H%M%S")`, with `none` modelling the
re-raised `ValueError("Invalid timestamp format: ...")` (every failure inside
`strptime`, including the constructor's range checks, raises `ValueError`,
which the validator catches and re-raises). -/
def parse_timestamp (s : String) : Option PyDateTime := strptimeYmdTHMS s.data

/-!
Section: JSON payloads and the response mapping layer (models.py)

Decoded JSON bodies are the `Json` type; objects are association lists in
insertion order with unique keys.  Validation failures carry the failing
field's location, either `missing` (required key absent — pydantic's
`missing` error) or `invalid` (present but untypable/unparsable).  pydantic
collects every field error into one `ValidationError`; the embedding
short-circuits at the first failing field in declaration order, which
preserves exactly the success/failure classification and, for the claims
below, the identity of the failing field.  pydantic's lax string-to-number
coercions are modelled with the `float(str)`/`int(str)` grammars above;
they agree on every input any claim exercises (plain decimal strings).
-/

/-- A decoded JSON value (`response.json()`). Numbers carry their exact
value. -/
inductive Json where
  | str (s : String)
  | num (q : Q)
  | bool (b : Bool)
  | null
  | arr (xs : List Json)
  | obj (kvs : List (String × Json))

/-- First-match lookup in a decoded object (dict keys are unique). -/
def lookupJ (k : String) : List (String × Json) → Option Json
  | [] => none
  | (k2, v) :: rest => if k2 = k then some v else lookupJ k rest

/-- Field lookup with `populate_by_name = True`: the alias is tried first,
then the field name. -/
def lookupAliased (a name : String) (kvs : List (String × Json)) : Option Json :=
  match lookupJ a kvs with
  | some v => some v
  | none => lookupJ name kvs

/-- A mapping (validation) failure: the location is the failing field's key. -/
inductive MapErr where
  | missing (loc : String)
  | invalid (loc : String)
deriving DecidableEq, Repr

/-- The blanket `convert_none_str` pre-validator (declared identically on
`CompanyOverview`, `IncomeStatementItem`, `BalanceSheetItem`, `CashFlowItem`,
`EarningsItem`, `NewsSentiment` and `TopGainerLoser`): `if v == "None":
return None`. -/
def convert_none_str (v : Json) : Json :=
  match v with
  | .str s => if s = "None" then Json.null else .str s
  | v0 => v0

/-- pydantic lax `int` from a decoded value's pieces: an integer string
(optional sign, digits). -/
def pyIntChars (l0 : List Char) : Option Int :=
  let l := pyStrip l0
  match l with
  | '+' :: r =>
    (match digitsU r with
     | some (v, _, r2) => if r2 = [] then some ((v : Nat) : Int) else none
     | none => none)
  | '-' :: r =>
    (match digitsU r with
     | some (v, _, r2) => if r2 = [] then some (-((v : Nat) : Int)) else none
     | none => none)
  | r =>
    (match digitsU r with
     | some (v, _, r2) => if r2 = [] then some ((v : Nat) : Int) else none
     | none => none)

/-- Python `int(str)`-style parse of a `String`. -/
def pyIntQ (s : String) : Option Int := pyIntChars s.data

/-- Required `str` field on a model class that declares `convert_none_str`:
the raw value `"None"` becomes `None` and then fails the `str` type check. -/
def reqStrF (loc : String) (v : Option Json) : Except MapErr String :=
  match v with
  | none => .error (.missing loc)
  | some v0 =>
    match convert_none_str v0 with
    | .str s => .ok s
    | _ => .error (.invalid loc)

/-- Required `str` field on a model class without `convert_none_str`
(the plain container models). -/
def reqStrPlain (loc : String) (v : Option Json) : Except MapErr String :=
  match v with
  | none => .error (.missing loc)
  | some (.str s) => .ok s
  | some _ => .error (.invalid loc)

/-- An `Optional[str]` field on a class with `convert_none_str`. -/
def optStrF (loc : String) (v : Option Json) : Except MapErr (Option String) :=
  match v with
  | none => .ok none
  | some v0 =>
    match convert_none_str v0 with
    | .null => .ok none
    | .str s => .ok (some s)
    | _ => .error (.invalid loc)

/-- An `Optional[float]` field on a class with `convert_none_str`: `None`
passes through, numbers are accepted, strings go through the lax
string-to-float coercion. -/
def optFloatF (loc : String) (v : Option Json) : Except MapErr (Option PyVal) :=
  match v with
  | none => .ok none
  | some v0 =>
    match convert_none_str v0 with
    | .null => .ok none
    | .num q => .ok (some (.finite q))
    | .str s =>
      match pyFloatQ s with
      | some pv => .ok (some pv)
      | none => .error (.invalid loc)
    | _ => .error (.invalid loc)

/-- An `Optional[int]` field on a class with `convert_none_str`. A decoded JSON
number is accepted when integral; a string goes through the lax
string-to-int coercion. -/
def optIntF (loc : String) (v : Option Json) : Except MapErr (Option Int) :=
  match v with
  | none => .ok none
  | some v0 =>
    match convert_none_str v0 with
    | .null => .ok none
    | .num q => if q.den = 1 then .ok (some q.num) else .error (.invalid loc)
    | .str s =>
      match pyIntQ s with
      | some n => .ok (some n)
      | none => .error (.invalid loc)
    | _ => .error (.invalid loc)

/-- The `change_percentage` field of `TopGainerLoser`: pydantic runs the two
`mode="before"` validators in reverse declaration order — `convert_none_str`
(declared second) first, then `parse_percentage` (declared first), which
strips `%` and parses string inputs and passes non-strings through — and
finally the `Optional[float]` check. -/
def changePercentageF (v : Option Json) : Except MapErr (Option PyVal) :=
  match v with
  | none => .ok none
  | some v0 =>
    match convert_none_str v0 with
    | .str s =>
      match pyFloatQ (rstripPercent s) with
      | some pv => .ok (some pv)
      | none => .error (.invalid "change_percentage")
    | .null => .ok none
    | .num q => .ok (some (.finite q))
    | _ => .error (.invalid "change_percentage")

/-- The `time_published` field of `NewsSentiment`: `convert_none_str`
(declared second) runs first, then `parse_timestamp` on string inputs; the
result must be a `datetime` (a numeric epoch input, which pydantic would
also accept, is not modelled — no claim exercises one; any non-string,
non-datetime survivor is a validation failure). -/
def timePublishedF (v : Option Json) : Except MapErr PyDateTime :=
  match v with
  | none => .error (.missing "time_published")
  | some v0 =>
    match convert_none_str v0 with
    | .str s =>
      match strptimeYmdTHMS s.data with
      | some dt => .ok dt
      | none => .error (.invalid "time_published")
    | _ => .error (.invalid "time_published")

/-- A required `List[str]` field (`authors`). -/
def strListF (loc : String) (v : Option Json) : Except MapErr (List String) :=
  match v with
  | none => .error (.missing loc)
  | some v0 =>
    match convert_none_str v0 with
    | .arr xs =>
      xs.mapM fun x =>
        match x with
        | .str s => .ok s
        | _ => .error (MapErr.invalid loc)
    | _ => .error (.invalid loc)

/-- An element of a `Dict[str, Union[str, float]]` value: the smart union
keeps strings as strings and numbers as floats. -/
inductive StrNum where
  | s (v : String)
  | n (v : PyVal)
deriving DecidableEq, Repr

/-- A required `List[Dict[str, Union[str, float]]]` field (`topics`,
`ticker_sentiment`). -/
def strNumDictListF (loc : String) (v : Option Json) :
    Except MapErr (List (List (String × StrNum))) :=
  match v with
  | none => .error (.missing loc)
  | some v0 =>
    match convert_none_str v0 with
    | .arr xs =>
      xs.mapM fun x =>
        match x with
        | .obj kvs =>
          kvs.mapM fun kv =>
            match kv with
            | (k, .str s) => .ok (k, StrNum.s s)
            | (k, .num q) => .ok (k, StrNum.n (.finite q))
            | _ => .error (MapErr.invalid loc)
        | _ => .error (MapErr.invalid loc)
    | _ => .error (.invalid loc)

/-- Record `TopGainerLoser` (models.py:348-381). Floats are `PyVal`, `volume` is an
integer. -/
structure TopGainerLoser where
  ticker : String
  price : Option PyVal
  change_amount : Option PyVal
  change_percentage : Option PyVal
  volume : Option Int
deriving DecidableEq, Repr

/-- Validate a payload into a `TopGainerLoser`. Field order and the
per-field validator pipelines follow the class declaration; a non-object
payload is a validation failure. -/
def mapTopGainerLoser (j : Json) : Except MapErr TopGainerLoser :=
  match j with
  | .obj kvs => do
    let ticker ← reqStrF "ticker" (lookupJ "ticker" kvs)
    let price ← optFloatF "price" (lookupJ "price" kvs)
    let change_amount ← optFloatF "change_amount" (lookupJ "change_amount" kvs)
    let change_percentage ← changePercentageF (lookupJ "change_percentage" kvs)
    let volume ← optIntF "volume" (lookupJ "volume" kvs)
    .ok ⟨ticker, price, change_amount, change_percentage, volume⟩
  | _ => .error (.invalid "TopGainerLoser")

/-- Record `TopGainersLosers` (models.py:384-394). Note: this container class does
NOT declare the `convert_none_str` validator. -/
structure TopGainersLosers where
  metadata : String
  last_updated : String
  top_gainers : List TopGainerLoser
  top_losers : List TopGainerLoser
  most_actively_traded : List TopGainerLoser
deriving DecidableEq, Repr

/-- Required `List[TopGainerLoser]` field: each element is validated; any
element's failure propagates. -/
def tglListF (loc : String) (v : Option Json) : Except MapErr (List TopGainerLoser) :=
  match v with
  | none => .error (.missing loc)
  | some (.arr xs) => xs.mapM mapTopGainerLoser
  | some _ => .error (.invalid loc)

/-- Validate a payload into a `TopGainersLosers` (no `convert_none_str`
pre-pass on this class). -/
def mapTopGainersLosers (j : Json) : Except MapErr TopGainersLosers :=
  match j with
  | .obj kvs => do
    let metadata ← reqStrPlain "metadata" (lookupJ "metadata" kvs)
    let last_updated ← reqStrPlain "last_updated" (lookupJ "last_updated" kvs)
    let top_gainers ← tglListF "top_gainers" (lookupJ "top_gainers" kvs)
    let top_losers ← tglListF "top_losers" (lookupJ "top_losers" kvs)
    let most_actively_traded ← tglListF "most_actively_traded" (lookupJ "most_actively_traded" kvs)
    .ok ⟨metadata, last_updated, top_gainers, top_losers, most_actively_traded⟩
  | _ => .error (.invalid "TopGainersLosers")

/-- Record `NewsSentiment` (models.py:293-333). -/
structure NewsSentiment where
  title : String
  url : String
  time_published : PyDateTime
  authors : List String
  summary : String
  banner_image : Option String
  source : String
  category_within_source : String
  source_domain : String
  topics : List (List (String × StrNum))
  overall_sentiment_score : Option PyVal
  overall_sentiment_label : String
  ticker_sentiment : List (List (String × StrNum))
deriving DecidableEq, Repr

/-- Validate a payload into a `NewsSentiment` (all declared aliases equal the
field names). -/
def mapNewsSentiment (j : Json) : Except MapErr NewsSentiment :=
  match j with
  | .obj kvs => do
    let title ← reqStrF "title" (lookupJ "title" kvs)
    let url ← reqStrF "url" (lookupJ "url" kvs)
    let time_published ← timePublishedF (lookupJ "time_published" kvs)
    let authors ← strListF "authors" (lookupJ "authors" kvs)
    let summary ← reqStrF "summary" (lookupJ "summary" kvs)
    let banner_image ← optStrF "banner_image" (lookupJ "banner_image" kvs)
    let source ← reqStrF "source" (lookupJ "source" kvs)
    let category_within_source ← reqStrF "category_within_source" (lookupJ "category_within_source" kvs)
    let source_domain ← reqStrF "source_domain" (lookupJ "source_domain" kvs)
    let topics ← strNumDictListF "topics" (lookupJ "topics" kvs)
    let overall_sentiment_score ← optFloatF "overall_sentiment_score" (lookupJ "overall_sentiment_score" kvs)
    let overall_sentiment_label ← reqStrF "overall_sentiment_label" (lookupJ "overall_sentiment_label" kvs)
    let ticker_sentiment ← strNumDictListF "ticker_sentiment" (lookupJ "ticker_sentiment" kvs)
    .ok ⟨title, url, time_published, authors, summary, banner_image, source,
         category_within_source, source_domain, topics, overall_sentiment_score,
         overall_sentiment_label, ticker_sentiment⟩
  | _ => .error (.invalid "NewsSentiment")

/-- Record `IncomeStatementItem` (models.py:73-115): two required strings plus the
optional numeric line items, all aliased. -/
structure IncomeStatementItem where
  fiscal_date_ending : String
  reported_currency : String
  gross_profit : Option PyVal
  total_revenue : Option PyVal
  cost_of_revenue : Option PyVal
  cost_of_goods_and_services_sold : Option PyVal
  operating_income : Option PyVal
  selling_general_and_administrative : Option PyVal
  research_and_development : Option PyVal
  operating_expenses : Option PyVal
  investment_income_net : Option PyVal
  net_interest_income : Option PyVal
  interest_income : Option PyVal
  interest_expense : Option PyVal
  non_interest_income : Option PyVal
  other_non_operating_income : Option PyVal
  depreciation : Option PyVal
  depreciation_and_amortization : Option PyVal
  income_before_tax : Option PyVal
  income_tax_expense : Option PyVal
  interest_and_debt_expense : Option PyVal
  net_income_from_continuing_operations : Option PyVal
  comprehensive_income_net_of_tax : Option PyVal
  ebit : Option PyVal
  ebitda : Option PyVal
  net_income : Option PyVal
deriving DecidableEq, Repr

/-- Validate a payload into an `IncomeStatementItem`; fields are looked up by
alias first, then by name (`populate_by_name = True`), in declaration order.
The error location uses the alias, as pydantic reports for alias-validated
fields. -/
def mapIncomeStatementItem (j : Json) : Except MapErr IncomeStatementItem :=
  match j with
  | .obj kvs => do
    let f1 ← reqStrF "fiscalDateEnding" (lookupAliased "fiscalDateEnding" "fiscal_date_ending" kvs)
    let f2 ← reqStrF "reportedCurrency" (lookupAliased "reportedCurrency" "reported_currency" kvs)
    let f3 ← optFloatF "grossProfit" (lookupAliased "grossProfit" "gross_profit" kvs)
    let f4 ← optFloatF "totalRevenue" (lookupAliased "totalRevenue" "total_revenue" kvs)
    let f5 ← optFloatF "costOfRevenue" (lookupAliased "costOfRevenue" "cost_of_revenue" kvs)
    let f6 ← optFloatF "costofGoodsAndServicesSold" (lookupAliased "costofGoodsAndServicesSold" "cost_of_goods_and_services_sold" kvs)
    let f7 ← optFloatF "operatingIncome" (lookupAliased "operatingIncome" "operating_income" kvs)
    let f8 ← optFloatF "sellingGeneralAndAdministrative" (lookupAliased "sellingGeneralAndAdministrative" "selling_general_and_administrative" kvs)
    let f9 ← optFloatF "researchAndDevelopment" (lookupAliased "researchAndDevelopment" "research_and_development" kvs)
    let f10 ← optFloatF "operatingExpenses" (lookupAliased "operatingExpenses" "operating_expenses" kvs)
    let f11 ← optFloatF "investmentIncomeNet" (lookupAliased "investmentIncomeNet" "investment_income_net" kvs)
    let f12 ← optFloatF "netInterestIncome" (lookupAliased "netInterestIncome" "net_interest_income" kvs)
    let f13 ← optFloatF "interestIncome" (lookupAliased "interestIncome" "interest_income" kvs)
    let f14 ← optFloatF "interestExpense" (lookupAliased "interestExpense" "interest_expense" kvs)
    let f15 ← optFloatF "nonInterestIncome" (lookupAliased "nonInterestIncome" "non_interest_income" kvs)
    let f16 ← optFloatF "otherNonOperatingIncome" (lookupAliased "otherNonOperatingIncome" "other_non_operating_income" kvs)
    let f17 ← optFloatF "depreciation" (lookupAliased "depreciation" "depreciation" kvs)
    let f18 ← optFloatF "depreciationAndAmortization" (lookupAliased "depreciationAndAmortization" "depreciation_and_amortization" kvs)
    let f19 ← optFloatF "incomeBeforeTax" (lookupAliased "incomeBeforeTax" "income_before_tax" kvs)
    let f20 ← optFloatF "incomeTaxExpense" (lookupAliased "incomeTaxExpense" "income_tax_expense" kvs)
    let f21 ← optFloatF "interestAndDebtExpense" (lookupAliased "interestAndDebtExpense" "interest_and_debt_expense" kvs)
    let f22 ← optFloatF "netIncomeFromContinuingOperations" (lookupAliased "netIncomeFromContinuingOperations" "net_income_from_continuing_operations" kvs)
    let f23 ← optFloatF "comprehensiveIncomeNetOfTax" (lookupAliased "comprehensiveIncomeNetOfTax" "comprehensive_income_net_of_tax" kvs)
    let f24 ← optFloatF "ebit" (lookupAliased "ebit" "ebit" kvs)
    let f25 ← optFloatF "ebitda" (lookupAliased "ebitda" "ebitda" kvs)
    let f26 ← optFloatF "netIncome" (lookupAliased "netIncome" "net_income" kvs)
    .ok ⟨f1, f2, f3, f4, f5, f6, f7, f8, f9, f10, f11, f12, f13, f14, f15, f16,
         f17, f18, f19, f20, f21, f22, f23, f24, f25, f26⟩
  | _ => .error (.invalid "IncomeStatementItem")

/-!
Section: canonical JSON serialization (`model_dump_json` semantics)

Fields serialize under their field names; `None` → `null`; floats → JSON
numbers (non-finite values → `null`, pydantic's default `ser_json_inf_nan`);
`datetime` → its ISO-8601 string `YYYY-MM-DDTHH:MM:SS`.
-/

/-- Zero-pad a number to two digits. -/
def pad2 (n : Nat) : String := if n < 10 then "0" ++ toString n else toString n

/-- Zero-pad a year to four digits. -/
def pad4 (n : Nat) : String :=
  if n < 10 then "000" ++ toString n
  else if n < 100 then "00" ++ toString n
  else if n < 1000 then "0" ++ toString n
  else toString n

/-- Python `datetime.isoformat()` for a whole-second naive datetime. -/
def isoFormat (dt : PyDateTime) : String :=
  pad4 dt.year ++ "-" ++ pad2 dt.month ++ "-" ++ pad2 dt.day ++ "T" ++
  pad2 dt.hour ++ ":" ++ pad2 dt.minute ++ ":" ++ pad2 dt.second

/-- Serialize an optional float field. -/
def serOptF : Option PyVal → Json
  | none => .null
  | some (.finite q) => .num q
  | some _ => .null

/-- Serialize an optional int field. -/
def serOptI : Option Int → Json
  | none => .null
  | some n => .num ⟨n, 1⟩

/-- Serialize an optional str field. -/
def serOptStr : Option String → Json
  | none => .null
  | some s => .str s

/-- Serialize a `Union[str, float]` value. -/
def serStrNum : StrNum → Json
  | .s s => .str s
  | .n (.finite q) => .num q
  | .n _ => .null

/-- Canonical JSON form of a `TopGainerLoser`. -/
def serializeTopGainerLoser (r : TopGainerLoser) : Json :=
  .obj [("ticker", .str r.ticker),
        ("price", serOptF r.price),
        ("change_amount", serOptF r.change_amount),
        ("change_percentage", serOptF r.change_percentage),
        ("volume", serOptI r.volume)]

/-- Canonical JSON form of a `NewsSentiment`; `time_published` serializes to
its ISO-8601 string. -/
def serializeNewsSentiment (r : NewsSentiment) : Json :=
  .obj [("title", .str r.title),
        ("url", .str r.url),
        ("time_published", .str (isoFormat r.time_published)),
        ("authors", .arr (r.authors.map Json.str)),
        ("summary", .str r.summary),
        ("banner_image", serOptStr r.banner_image),
        ("source", .str r.source),
        ("category_within_source", .str r.category_within_source),
        ("source_domain", .str r.source_domain),
        ("topics", .arr (r.topics.map (fun d => Json.obj (d.map (fun kv => (kv.1, serStrNum kv.2)))))),
        ("overall_sentiment_score", serOptF r.overall_sentiment_score),
        ("overall_sentiment_label", .str r.overall_sentiment_label),
        ("ticker_sentiment", .arr (r.ticker_sentiment.map (fun d => Json.obj (d.map (fun kv => (kv.1, serStrNum kv.2))))))]

/-!
Section: request dispatcher (client.py)

`_make_request` injects `function` and `apikey` into the parameter dict,
logs the request, performs the GET, and classifies the response.  The
embedding splits it into the pure pieces the claims are about: the logging
step before the network call (`requestLogMessage`) and the response
classification after it (`classifyResponse`).  Log sink entries are the
formatted `(level, message)` pairs the handlers receive.
-/

/-- The raised client exception (exceptions.py): `APIError(status, message)`,
`RateLimitError(note)` or `InvalidParameterError(message)`. -/
inductive ClientError where
  | apiError (status : Nat) (message : String)
  | rateLimit (note : String)
  | invalidParameter (message : String)
deriving DecidableEq, Repr

/-- Log levels of the `logging` sink. -/
inductive LogLevel where
  | debug
  | info
  | warning
  | error
deriving DecidableEq, Repr

/-- Does `pre` occur at the head of the list? -/
def startsWithL : List Char → List Char → Bool
  | [], _ => true
  | _ :: _, [] => false
  | a :: as, b :: bs => a = b && startsWithL as bs

/-- Python `needle in hay` substring test on character lists. -/
def containsSubL (needle : List Char) : List Char → Bool
  | [] => startsWithL needle []
  | c :: rest => startsWithL needle (c :: rest) || containsSubL needle rest

/-- Python `needle in hay` substring test on strings. -/
def containsSub (needle hay : String) : Bool := containsSubL needle.data hay.data

/-- Python `str(v)` for a decoded JSON scalar as interpolated into a log
message by `%s`.  Strings render bare, `None`/`True`/`False` use their
Python spellings.  Containers and non-integral numbers use an approximate
rendering; no claim inspects a log entry built from one. -/
def pyStr : Json → String
  | .str s => s
  | .num q => if q.den = 1 then toString q.num ++ ".0" else toString q.num ++ "/" ++ toString q.den
  | .bool b => if b then "True" else "False"
  | .null => "None"
  | .arr _ => "[...]"
  | .obj _ => "\x7b...\x7d"

/-- Python `repr` of a string-valued dict (quotes around keys and values),
as `"%s" % params` renders the parameter dict in the request log. -/
def pyReprStrDict (kvs : List (String × String)) : String :=
  let items := kvs.map fun kv => "\x27" ++ kv.1 ++ "\x27: \x27" ++ kv.2 ++ "\x27"
  "\x7b" ++ String.intercalate ", " items ++ "\x7d"

/-- Python dict insert: overwrite an existing key in place, else append. -/
def dictInsert (k : String) (v : String) : List (String × String) → List (String × String)
  | [] => [(k, v)]
  | (k2, v2) :: rest => if k2 = k then (k, v) :: rest else (k2, v2) :: dictInsert k v rest

/-- The parameter dict assembled by `_make_request` (client.py:76-77):
caller parameters plus `function` and `apikey`. -/
def assembledParams (fn : String) (params : List (String × String)) (apiKey : String) :
    List (String × String) :=
  dictInsert "apikey" apiKey (dictInsert "function" fn params)

/-- The message `_make_request` writes to the log sink at INFO level before
sending the request (client.py:79-82).  The statement that would have
replaced the key with `"***"` is commented out in the source, so
`log_params` is an unmodified copy of the assembled parameters, credential
included. -/
def requestLogMessage (fn : String) (params : List (String × String)) (apiKey : String) : String :=
  "Making API request - Function: " ++ fn ++ ", Params: " ++
    pyReprStrDict (assembledParams fn params apiKey)

/-- Response classification in `_make_request` (client.py:85-109), given the
transport's status code, raw body text, and the decoded JSON object (the
claims concern decoded dict bodies).  Returns the outcome — the returned
payload or the raised exception — together with the ordered log-sink
entries. -/
def classifyResponse (fn : String) (status : Nat) (text : String)
    (data : List (String × Json)) :
    Except ClientError Json × List (LogLevel × String) :=
  let logs0 := [(LogLevel.debug, "Response status code: " ++ toString status)]
  if status ≠ 200 then
    (.error (.apiError status text),
     logs0 ++ [(LogLevel.error,
       "API request failed - Status: " ++ toString status ++ ", Response: " ++ text)])
  else
    match lookupJ "Error Message" data with
    | some msg =>
      (.error (.apiError status (pyStr msg)),
       logs0 ++ [(LogLevel.error, "API returned error - " ++ pyStr msg)])
    | none =>
      match lookupJ "Note" data with
      | some note =>
        let warn := (LogLevel.warning, "API returned note: " ++ pyStr note)
        if containsSub "API call frequency" (pyStr note) then
          (.error (.rateLimit (pyStr note)),
           logs0 ++ [warn, (LogLevel.error, "Rate limit exceeded")])
        else
          (.ok (.obj data),
           logs0 ++ [warn,
             (LogLevel.info, "API request successful - Function: " ++ fn),
             (LogLevel.debug, "Response data: " ++ pyStr (.obj data))])
      | none =>
        (.ok (.obj data),
         logs0 ++ [(LogLevel.info, "API request successful - Function: " ++ fn),
                   (LogLevel.debug, "Response data: " ++ pyStr (.obj data))])

/-- The valid intraday intervals (client.py:141, 460, 569). -/
def validIntervals : List String := ["1min", "5min", "15min", "30min", "60min"]

/-- A dispatched request: the endpoint identifier passed to `_make_request`
and the caller-assembled parameters. -/
structure DispatchedRequest where
  function : String
  params : List (String × String)
deriving DecidableEq, Repr

/-- The parameter dict assembled by `get_time_series_intraday`
(client.py:144-151), before the optional `month`. -/
def intradayBaseParams (symbol interval : String) (adjusted extended_hours : Bool)
    (outputsize datatype : String) : List (String × String) :=
  [("symbol", symbol),
   ("interval", interval),
   ("adjusted", if adjusted then "true" else "false"),
   ("extended_hours", if extended_hours then "true" else "false"),
   ("outputsize", outputsize),
   ("datatype", datatype)]

/-- Model of `get_time_series_intraday` (client.py:116-157) up to the dispatch: the
interval is validated locally first (an invalid one raises
`InvalidParameterError` before any request exists); a truthy `month`
(present and non-empty) routes to `TIME_SERIES_INTRADAY_EXTENDED` with
`month` appended, otherwise to `TIME_SERIES_INTRADAY`. -/
def get_time_series_intraday (symbol interval : String) (adjusted extended_hours : Bool)
    (month : Option String) (outputsize datatype : String) :
    Except ClientError DispatchedRequest :=
  if validIntervals.contains interval then
    let params := intradayBaseParams symbol interval adjusted extended_hours outputsize datatype
    match month with
    | some m =>
      if m ≠ "" then .ok ⟨"TIME_SERIES_INTRADAY_EXTENDED", params ++ [("month", m)]⟩
      else .ok ⟨"TIME_SERIES_INTRADAY", params⟩
    | none => .ok ⟨"TIME_SERIES_INTRADAY", params⟩
  else .error (.invalidParameter ("Invalid interval: " ++ interval))

/-- Model of `get_forex_intraday` (client.py:439-470) up to the dispatch. -/
def get_forex_intraday (from_symbol to_symbol interval outputsize datatype : String) :
    Except ClientError DispatchedRequest :=
  if validIntervals.contains interval then
    .ok ⟨"FX_INTRADAY",
         [("from_symbol", from_symbol), ("to_symbol", to_symbol),
          ("interval", interval), ("outputsize", outputsize), ("datatype", datatype)]⟩
  else .error (.invalidParameter ("Invalid interval: " ++ interval))

/-- Model of `get_crypto_intraday` (client.py:548-579) up to the dispatch. -/
def get_crypto_intraday (symbol market interval outputsize datatype : String) :
    Except ClientError DispatchedRequest :=
  if validIntervals.contains interval then
    .ok ⟨"CRYPTO_INTRADAY",
         [("symbol", symbol), ("market", market), ("interval", interval),
          ("outputsize", outputsize), ("datatype", datatype)]⟩
  else .error (.invalidParameter ("Invalid interval: " ++ interval))

/-!
Section: helper lemmas
-/

/-- Is an `Except` computation a success? -/
def exceptIsOk : Except ε α → Bool
  | .ok _ => true
  | .error _ => false

/-- An optional float field holds a finite value (or nothing). -/
def finOpt : Option PyVal → Bool
  | none => true
  | some (.finite _) => true
  | some _ => false

theorem exBind_ok (a : α) (f : α → Except ε β) : (Except.ok a >>= f) = f a := rfl

theorem exBind_error (e : ε) (f : α → Except ε β) :
    ((Except.error e : Except ε α) >>= f) = .error e := rfl

/-- Appending the stripped character and stripping again is the identity. -/
theorem rstripChar_append (c : Char) (l : List Char) :
    rstripChar c (l ++ [c]) = rstripChar c l := by
  unfold rstripChar
  rw [List.reverse_append]
  simp [List.dropWhile]

/-- Stripping a character that does not occur is the identity. -/
theorem rstripChar_of_not_mem (c : Char) (l : List Char) (h : c ∉ l) :
    rstripChar c l = l := by
  unfold rstripChar
  have hrw : l.reverse.dropWhile (fun d => d = c) = l.reverse := by
    cases hrev : l.reverse with
    | nil => simp
    | cons a t =>
      have ha : a ∈ l := by
        rw [← List.mem_reverse, hrev]
        exact List.mem_cons_self a t
      have hne : ¬(a = c) := fun e => h (e ▸ ha)
      simp [List.dropWhile, hne]
  rw [hrw, List.reverse_reverse]

/-- A required-string field of a `convert_none_str` class never yields the
literal `"None"`. -/
theorem reqStrF_ok_ne_none (loc : String) (v : Option Json) (s : String)
    (h : reqStrF loc v = .ok s) : s ≠ "None" := by
  match v with
  | none => simp [reqStrF] at h
  | some v0 =>
    match v0 with
    | .str s0 =>
      by_cases h0 : s0 = "None"
      · simp [reqStrF, convert_none_str, h0] at h
      · simp [reqStrF, convert_none_str, h0] at h
        exact h ▸ h0
    | .num q => simp [reqStrF, convert_none_str] at h
    | .bool b => simp [reqStrF, convert_none_str] at h
    | .null => simp [reqStrF, convert_none_str] at h
    | .arr xs => simp [reqStrF, convert_none_str] at h
    | .obj kvs => simp [reqStrF, convert_none_str] at h

/-- Invert a successful `TopGainerLoser` mapping into its per-field
pipeline results. -/
theorem mapTGL_ok_inv (kvs : List (String × Json)) (r : TopGainerLoser)
    (h : mapTopGainerLoser (.obj kvs) = .ok r) :
    reqStrF "ticker" (lookupJ "ticker" kvs) = .ok r.ticker ∧
    optFloatF "price" (lookupJ "price" kvs) = .ok r.price ∧
    optFloatF "change_amount" (lookupJ "change_amount" kvs) = .ok r.change_amount ∧
    changePercentageF (lookupJ "change_percentage" kvs) = .ok r.change_percentage ∧
    optIntF "volume" (lookupJ "volume" kvs) = .ok r.volume := by
  simp only [mapTopGainerLoser] at h
  cases h1 : reqStrF "ticker" (lookupJ "ticker" kvs) with
  | error e => rw [h1, exBind_error] at h; exact absurd h (by simp)
  | ok t =>
    rw [h1, exBind_ok] at h
    cases h2 : optFloatF "price" (lookupJ "price" kvs) with
    | error e => rw [h2, exBind_error] at h; exact absurd h (by simp)
    | ok pr =>
      rw [h2, exBind_ok] at h
      cases h3 : optFloatF "change_amount" (lookupJ "change_amount" kvs) with
      | error e => rw [h3, exBind_error] at h; exact absurd h (by simp)
      | ok ca =>
        rw [h3, exBind_ok] at h
        cases h4 : changePercentageF (lookupJ "change_percentage" kvs) with
        | error e => rw [h4, exBind_error] at h; exact absurd h (by simp)
        | ok cp =>
          rw [h4, exBind_ok] at h
          cases h5 : optIntF "volume" (lookupJ "volume" kvs) with
          | error e => rw [h5, exBind_error] at h; exact absurd h (by simp)
          | ok vol =>
            rw [h5, exBind_ok] at h
            have hr : r = ⟨t, pr, ca, cp, vol⟩ := by
              cases h
              rfl
            subst hr
            exact ⟨rfl, rfl, rfl, rfl, rfl⟩

/-!
Section: claim theorems
-/

/-- C1: the claim says the credential never appears in any message written
to the log sink.  The code contradicts its own comment ("Log the request
(excluding API key)"): the masking assignment is commented out
(client.py:81), so the INFO-level request log contains the API key
verbatim.  At the failing input (function `OVERVIEW`, params
`{'symbol': 'IBM'}`, key `SECRETKEY`) the logged message is exactly the
string below, and it contains the credential as a substring. -/
theorem C1_credential_logged :
    requestLogMessage "OVERVIEW" [("symbol", "IBM")] "SECRETKEY" =
      "Making API request - Function: OVERVIEW, Params: \x7b\x27symbol\x27: \x27IBM\x27, \x27function\x27: \x27OVERVIEW\x27, \x27apikey\x27: \x27SECRETKEY\x27\x7d" ∧
    containsSub "SECRETKEY"
      (requestLogMessage "OVERVIEW" [("symbol", "IBM")] "SECRETKEY") = true := by
  constructor
  · rfl
  · decide

/-- C2: `parse_percentage` strips the trailing `%` and parses the remainder
as a float, preserving the sign: the three example evaluations from the
claim hold, and for every string `s` free of `%` the parse of `s ++ "%"`
equals the plain float parse of `s` (so exactly the strings whose stripped
remainder is unparsable are rejected). -/
theorem C2_parse_percentage :
    parse_percentage "-3.25%" = some (.finite (Q.mk' (-325) 100)) ∧
    parse_percentage "7%" = some (.finite (Q.mk' 7 1)) ∧
    parse_percentage "abc" = none ∧
    ∀ s : String, '%' ∉ s.data → parse_percentage (s ++ "%") = pyFloatQ s := by
  refine ⟨by decide, by decide, by decide, ?_⟩
  intro s h
  show pyFloatChars (String.mk (rstripChar '%' (s ++ "%").data)).data = pyFloatChars s.data
  rw [String.data_append]
  have hp : ("%" : String).data = ['%'] := rfl
  rw [hp, rstripChar_append, rstripChar_of_not_mem '%' s.data h]

/-- C2 witness: the universally quantified part applied at `s = "7"`. -/
theorem C2_parse_percentage_witness :
    parse_percentage ("7" ++ "%") = pyFloatQ "7" :=
  C2_parse_percentage.2.2.2 "7" (by decide)

/-- C3: classification of a decoded 200-status body: an `"Error Message"`
key fails with `APIError` carrying the status code and the message; a
`"Note"` containing `"API call frequency"` fails with `RateLimitError`
carrying the note; a `"Note"` without that substring is logged as a
warning and the payload is returned as success. -/
theorem C3_body_classification :
    ∀ (fn text : String) (kvs : List (String × Json)) (m n : String),
      (lookupJ "Error Message" kvs = some (.str m) →
        (classifyResponse fn 200 text kvs).fst = .error (.apiError 200 m)) ∧
      (lookupJ "Error Message" kvs = none →
        lookupJ "Note" kvs = some (.str n) →
        containsSub "API call frequency" n = true →
        (classifyResponse fn 200 text kvs).fst = .error (.rateLimit n)) ∧
      (lookupJ "Error Message" kvs = none →
        lookupJ "Note" kvs = some (.str n) →
        containsSub "API call frequency" n = false →
        (classifyResponse fn 200 text kvs).fst = .ok (.obj kvs) ∧
        (LogLevel.warning, "API returned note: " ++ n) ∈
          (classifyResponse fn 200 text kvs).snd) := by
  intro fn text kvs m n
  refine ⟨?_, ?_, ?_⟩
  · intro h1
    simp [classifyResponse, h1, pyStr]
  · intro h1 h2 h3
    simp [classifyResponse, h1, h2, h3, pyStr]
  · intro h1 h2 h3
    simp [classifyResponse, h1, h2, h3, pyStr]

/-- C3 witness: the three branches at the spec's concrete bodies. -/
theorem C3_body_classification_witness :
    (classifyResponse "F" 200 "" [("Error Message", .str "Invalid API call")]).fst =
      .error (.apiError 200 "Invalid API call") ∧
    (classifyResponse "F" 200 ""
        [("Note", .str "Thank you for using Alpha Vantage! Our standard API call frequency is 5 calls per minute")]).fst =
      .error (.rateLimit "Thank you for using Alpha Vantage! Our standard API call frequency is 5 calls per minute") ∧
    ((classifyResponse "F" 200 "" [("Note", .str "some other note")]).fst =
      .ok (.obj [("Note", .str "some other note")]) ∧
     (LogLevel.warning, "API returned note: some other note") ∈
       (classifyResponse "F" 200 "" [("Note", .str "some other note")]).snd) :=
  ⟨(C3_body_classification "F" "" [("Error Message", .str "Invalid API call")]
      "Invalid API call" "").1 rfl,
   (C3_body_classification "F" ""
      [("Note", .str "Thank you for using Alpha Vantage! Our standard API call frequency is 5 calls per minute")]
      "" "Thank you for using Alpha Vantage! Our standard API call frequency is 5 calls per minute").2.1
      rfl rfl (by decide),
   (C3_body_classification "F" "" [("Note", .str "some other note")]
      "" "some other note").2.2 rfl rfl (by decide)⟩

/-- A movers payload whose `metadata` field carries the raw string `"None"`
(the `TopGainersLosers` container class declares no `convert_none_str`
validator). -/
def c4Payload : Json :=
  .obj [("metadata", .str "None"),
        ("last_updated", .str "2024-01-15 16:15:59 US/Eastern"),
        ("top_gainers", .arr []),
        ("top_losers", .arr []),
        ("most_actively_traded", .arr [])]

/-- C4 counterexample: the claim quantifies over every record type produced
by the Mapper, but `TopGainersLosers` (like the other container classes)
lacks the `convert_none_str` validator, so a raw `"None"` maps to the
literal string `"None"`, not to the null value. -/
theorem C4_counterexample :
    mapTopGainersLosers c4Payload =
      .ok ⟨"None", "2024-01-15 16:15:59 US/Eastern", [], [], []⟩ := rfl

/-- C4 amended: on the model classes that declare `convert_none_str`
(`CompanyOverview`, the statement/earnings line items, `NewsSentiment`,
`TopGainerLoser`), a raw `"None"` never survives into the record: each
optional field pipeline sends `some (.str "None")` to `none`, a required
string field rejects it, and concretely for `TopGainerLoser` a successful
mapping has null fields wherever the payload carried `"None"` (and its
required `ticker` cannot have carried `"None"` at all).  Container classes
without the validator pass the string through (see the counterexample). -/
theorem C4_amended :
    (∀ loc : String, optFloatF loc (some (.str "None")) = .ok none ∧
      optIntF loc (some (.str "None")) = .ok none ∧
      optStrF loc (some (.str "None")) = .ok none ∧
      reqStrF loc (some (.str "None")) = .error (.invalid loc)) ∧
    ∀ (kvs : List (String × Json)) (r : TopGainerLoser),
      mapTopGainerLoser (.obj kvs) = .ok r →
      (lookupJ "price" kvs = some (.str "None") → r.price = none) ∧
      (lookupJ "change_amount" kvs = some (.str "None") → r.change_amount = none) ∧
      (lookupJ "change_percentage" kvs = some (.str "None") → r.change_percentage = none) ∧
      (lookupJ "volume" kvs = some (.str "None") → r.volume = none) ∧
      lookupJ "ticker" kvs ≠ some (.str "None") := by
  constructor
  · intro loc
    exact ⟨rfl, rfl, rfl, rfl⟩
  · intro kvs r h
    obtain ⟨h1, h2, h3, h4, h5⟩ := mapTGL_ok_inv kvs r h
    refine ⟨?_, ?_, ?_, ?_, ?_⟩
    · intro hp
      rw [hp] at h2
      have : optFloatF "price" (some (.str "None")) = .ok none := rfl
      rw [this] at h2
      exact (Except.ok.injEq _ _ ▸ h2).symm
    · intro hp
      rw [hp] at h3
      have : optFloatF "change_amount" (some (.str "None")) = .ok none := rfl
      rw [this] at h3
      exact (Except.ok.injEq _ _ ▸ h3).symm
    · intro hp
      rw [hp] at h4
      have : changePercentageF (some (.str "None")) = .ok none := rfl
      rw [this] at h4
      exact (Except.ok.injEq _ _ ▸ h4).symm
    · intro hp
      rw [hp] at h5
      have : optIntF "volume" (some (.str "None")) = .ok none := rfl
      rw [this] at h5
      exact (Except.ok.injEq _ _ ▸ h5).symm
    · intro hp
      rw [hp] at h1
      have : reqStrF "ticker" (some (.str "None")) = .error (.invalid "ticker") := rfl
      rw [this] at h1
      exact absurd h1 (by simp)

/-- Payload for the C4 witness: every optional field of a `TopGainerLoser`
carries the raw string `"None"`. -/
def c4wKvs : List (String × Json) :=
  [("ticker", .str "AAA"), ("price", .str "None"), ("change_amount", .str "None"),
   ("change_percentage", .str "None"), ("volume", .str "None")]

/-- The record the C4 witness payload maps to. -/
def c4wRec : TopGainerLoser := ⟨"AAA", none, none, none, none⟩

/-- C4 witness: the amended theorem applied at the concrete payload. -/
theorem C4_amended_witness :
    c4wRec.price = none ∧ c4wRec.volume = none ∧
    lookupJ "ticker" c4wKvs ≠ some (.str "None") :=
  ⟨(C4_amended.2 c4wKvs c4wRec rfl).1 rfl,
   (C4_amended.2 c4wKvs c4wRec rfl).2.2.2.1 rfl,
   (C4_amended.2 c4wKvs c4wRec rfl).2.2.2.2⟩

/-- C5 counterexample: the claim says every string other than the fixed
15-character layout fails, but `strptime`'s `%H` pattern also accepts a
single digit: the 14-character `"20240115T93000"` parses successfully to
2024-01-15 09:30:00. -/
theorem C5_counterexample :
    parse_timestamp "20240115T93000" = some ⟨2024, 1, 15, 9, 30, 0⟩ := by decide

/-- C5 amended: `parse_timestamp` accepts the compact layout — 4-digit
year, then month/day and the time components each either zero-padded
two-digit or unpadded single-digit (the `%m%d`/`%H%M%S` regexes), a
case-insensitive literal `T`, subject to calendar validity.  Both examples
from the claim hold: the 15-character form yields 2024-01-15 09:30:00, and
`"2024-01-15"` fails; but some other shapes are also accepted, e.g. the
single-digit-hour form and a single-digit-month/day form. -/
theorem C5_parse_timestamp :
    parse_timestamp "20240115T093000" = some ⟨2024, 1, 15, 9, 30, 0⟩ ∧
    parse_timestamp "2024-01-15" = none ∧
    parse_timestamp "20240115T93000" = some ⟨2024, 1, 15, 9, 30, 0⟩ ∧
    parse_timestamp "2024115T093000" = some ⟨2024, 11, 5, 9, 30, 0⟩ ∧
    parse_timestamp "20240230T000000" = none ∧
    parse_timestamp "20240115T093060" = none := by
  refine ⟨by decide, by decide, by decide, by decide, by decide, by decide⟩

/-- C6 counterexample: status 201 is a 2xx success status, but the code
checks `status_code != 200`, so the call fails with `APIError(201, body)`
where the claim says a 2xx must not fail on account of the status. -/
theorem C6_counterexample :
    (classifyResponse "F" 201 "Created" []).fst = .error (.apiError 201 "Created") := rfl

/-- C6 amended: the dispatcher fails with `APIError(status, body text)` for
every status other than exactly 200 (not: every non-2xx), and a status of
200 with a clean body succeeds. -/
theorem C6_amended :
    ∀ (fn text : String) (status : Nat) (kvs : List (String × Json)),
      (status ≠ 200 →
        (classifyResponse fn status text kvs).fst = .error (.apiError status text)) ∧
      (lookupJ "Error Message" kvs = none → lookupJ "Note" kvs = none →
        (classifyResponse fn 200 text kvs).fst = .ok (.obj kvs)) := by
  intro fn text status kvs
  constructor
  · intro h
    simp [classifyResponse, h]
  · intro h1 h2
    simp [classifyResponse, h1, h2]

/-- C6 witness: the amended theorem at status 404 and at a clean 200. -/
theorem C6_amended_witness :
    (classifyResponse "F" 404 "Not Found" []).fst = .error (.apiError 404 "Not Found") ∧
    (classifyResponse "F" 200 "" [("payload", .null)]).fst = .ok (.obj [("payload", .null)]) :=
  ⟨(C6_amended "F" "Not Found" 404 []).1 (by decide),
   (C6_amended "F" "" 200 [("payload", .null)]).2 rfl rfl⟩

/-- A finite-or-absent optional float is `none` or a finite value. -/
theorem finOpt_cases (x : Option PyVal) (h : finOpt x = true) :
    x = none ∨ ∃ q, x = some (.finite q) := by
  rcases x with _ | pv
  · exact .inl rfl
  · rcases pv with q | b | _
    · exact .inr ⟨q, rfl⟩
    · simp [finOpt] at h
    · simp [finOpt] at h

/-- C7: each intraday operation (equity, forex, crypto) validates the
interval locally: an interval outside `{1min, 5min, 15min, 30min, 60min}`
fails with `InvalidParameterError` before any request value exists, and a
valid interval never produces that error. -/
theorem C7_interval_validation :
    ∀ (symbol interval outputsize datatype from_symbol to_symbol market : String)
      (adjusted extended_hours : Bool) (month : Option String),
      (interval ∉ validIntervals →
        get_time_series_intraday symbol interval adjusted extended_hours month outputsize datatype =
          .error (.invalidParameter ("Invalid interval: " ++ interval)) ∧
        get_forex_intraday from_symbol to_symbol interval outputsize datatype =
          .error (.invalidParameter ("Invalid interval: " ++ interval)) ∧
        get_crypto_intraday symbol market interval outputsize datatype =
          .error (.invalidParameter ("Invalid interval: " ++ interval))) ∧
      (interval ∈ validIntervals →
        exceptIsOk (get_time_series_intraday symbol interval adjusted extended_hours month outputsize datatype) = true ∧
        exceptIsOk (get_forex_intraday from_symbol to_symbol interval outputsize datatype) = true ∧
        exceptIsOk (get_crypto_intraday symbol market interval outputsize datatype) = true) := by
  intro symbol interval outputsize datatype from_symbol to_symbol market adjusted extended_hours month
  constructor
  · intro h
    refine ⟨?_, ?_, ?_⟩ <;>
      simp [get_time_series_intraday, get_forex_intraday, get_crypto_intraday, h]
  · intro h
    refine ⟨?_, ?_, ?_⟩
    · rcases month with _ | m
      · simp [get_time_series_intraday, h, exceptIsOk]
      · by_cases hm : m = ""
        · simp [get_time_series_intraday, h, hm, exceptIsOk]
        · simp [get_time_series_intraday, h, hm, exceptIsOk]
    · simp [get_forex_intraday, h, exceptIsOk]
    · simp [get_crypto_intraday, h, exceptIsOk]

/-- C7 witness: `"2min"` is rejected by all three operations before any
request is built; `"5min"` is accepted. -/
theorem C7_interval_validation_witness :
    (get_time_series_intraday "IBM" "2min" true true none "compact" "json" =
      .error (.invalidParameter "Invalid interval: 2min") ∧
     get_forex_intraday "EUR" "USD" "2min" "compact" "json" =
      .error (.invalidParameter "Invalid interval: 2min") ∧
     get_crypto_intraday "BTC" "USD" "2min" "compact" "json" =
      .error (.invalidParameter "Invalid interval: 2min")) ∧
    exceptIsOk (get_time_series_intraday "IBM" "5min" true true none "compact" "json") = true :=
  ⟨(C7_interval_validation "IBM" "2min" "compact" "json" "EUR" "USD" "USD" true true none).1
      (by decide),
   ((C7_interval_validation "IBM" "5min" "compact" "json" "EUR" "USD" "USD" true true none).2
      (by decide)).1⟩

/-- A news-sentiment item payload, as the `NEWS_SENTIMENT` feed delivers it
(compact `time_published`). -/
def nsPayload : Json :=
  .obj [("title", .str "T"),
        ("url", .str "u1"),
        ("time_published", .str "20240115T093000"),
        ("authors", .arr [.str "A"]),
        ("summary", .str "S"),
        ("banner_image", .null),
        ("source", .str "SRC"),
        ("category_within_source", .str "C"),
        ("source_domain", .str "D"),
        ("topics", .arr []),
        ("overall_sentiment_score", .num (Q.mk' 1 2)),
        ("overall_sentiment_label", .str "Neutral"),
        ("ticker_sentiment", .arr [])]

/-- The record `nsPayload` maps to. -/
def nsRecord : NewsSentiment :=
  ⟨"T", "u1", ⟨2024, 1, 15, 9, 30, 0⟩, ["A"], "S", none, "SRC", "C", "D", [],
   some (.finite (Q.mk' 1 2)), "Neutral", []⟩

/-- A movers entry whose price is the string `"inf"`, which the lax
string-to-float coercion accepts as positive infinity. -/
def tglInfPayload : Json := .obj [("ticker", .str "A"), ("price", .str "inf")]

/-- The record `tglInfPayload` maps to. -/
def tglInfRec : TopGainerLoser := ⟨"A", some (.inf false), none, none, none⟩

/-- C8 counterexample: the round-trip claim fails twice over.  First,
`nsPayload` maps successfully, but its canonical JSON serialization
renders `time_published` as the ISO-8601 string `"2024-01-15T09:30:00"`,
which `parse_timestamp` rejects — re-mapping the serialized record fails
instead of yielding an identical record.  Second, `tglInfPayload` maps
successfully to a `TopGainerLoser` holding an infinite price, but the
canonical serialization renders the non-finite float as `null` (pydantic's
default `ser_json_inf_nan`), so re-mapping yields a record with an absent
price — not a field-for-field identical record. -/
theorem C8_counterexample :
    (mapNewsSentiment nsPayload = .ok nsRecord ∧
     exceptIsOk (mapNewsSentiment (serializeNewsSentiment nsRecord)) = false) ∧
    (mapTopGainerLoser tglInfPayload = .ok tglInfRec ∧
     mapTopGainerLoser (serializeTopGainerLoser tglInfRec) =
       .ok ⟨"A", none, none, none, none⟩ ∧
     tglInfRec ≠ (⟨"A", none, none, none, none⟩ : TopGainerLoser)) :=
  ⟨⟨rfl, rfl⟩, rfl, rfl, by decide⟩

/-- C8 amended: round-trip idempotence holds for `TopGainerLoser` records
whose numeric fields are finite (mapping, serializing to canonical JSON and
mapping again reproduces the record field-for-field).  Both exclusions are
forced by the counterexample: a record holding a non-finite float (e.g.
price `"inf"`) serializes that field to `null` and does not round-trip,
and `NewsSentiment` does not round-trip at all — re-mapping its canonical
JSON serialization fails validation, because the serialized
`time_published` is ISO-8601 while the validator only accepts the compact
`strptime` layout. -/
theorem C8_roundtrip :
    (∀ (j : Json) (r : TopGainerLoser),
      mapTopGainerLoser j = .ok r →
      finOpt r.price = true → finOpt r.change_amount = true →
      finOpt r.change_percentage = true →
      mapTopGainerLoser (serializeTopGainerLoser r) = .ok r) ∧
    exceptIsOk (mapNewsSentiment (serializeNewsSentiment nsRecord)) = false := by
  constructor
  · intro j r h hp hca hcp
    cases j with
    | str s => simp [mapTopGainerLoser] at h
    | num q => simp [mapTopGainerLoser] at h
    | bool b => simp [mapTopGainerLoser] at h
    | null => simp [mapTopGainerLoser] at h
    | arr xs => simp [mapTopGainerLoser] at h
    | obj kvs =>
      obtain ⟨h1, h2, h3, h4, h5⟩ := mapTGL_ok_inv kvs r h
      have ht : r.ticker ≠ "None" := reqStrF_ok_ne_none _ _ _ h1
      obtain ⟨t, p, ca, cp, vol⟩ := r
      have ht' : t ≠ "None" := ht
      rcases finOpt_cases p hp with rfl | ⟨q1, rfl⟩ <;>
        rcases finOpt_cases ca hca with rfl | ⟨q2, rfl⟩ <;>
          rcases finOpt_cases cp hcp with rfl | ⟨q3, rfl⟩ <;>
            rcases vol with _ | n <;>
              simp +decide [mapTopGainerLoser, serializeTopGainerLoser, serOptF, serOptI,
                reqStrF, optFloatF, changePercentageF, optIntF, convert_none_str, lookupJ,
                exBind_ok, ht']
  · rfl

/-- The movers payload from the spec's end-to-end scenario (§8). -/
def c8wPayload : Json :=
  .obj [("ticker", .str "XYZ"),
        ("change_percentage", .str "12.50%"),
        ("price", .str "10.0"),
        ("volume", .str "1000000")]

/-- The record `c8wPayload` maps to: `change_percentage` 12.5, `price` 10.0,
`volume` 1000000. -/
def c8wRec : TopGainerLoser :=
  ⟨"XYZ", some (.finite (Q.mk' 10 1)), none, some (.finite (Q.mk' 25 2)), some 1000000⟩

/-- C8 witness: the round-trip theorem applied at the spec's movers
payload. -/
theorem C8_roundtrip_witness :
    mapTopGainerLoser (serializeTopGainerLoser c8wRec) = .ok c8wRec :=
  C8_roundtrip.1 c8wPayload c8wRec rfl rfl rfl rfl

/-- C9: a payload with neither the alias `fiscalDateEnding` nor the field
name `fiscal_date_ending` fails validation with an error naming that
field (pydantic reports the alias), and no record — hence no defaulted
value — is produced. -/
theorem C9_missing_required_field :
    ∀ kvs : List (String × Json),
      lookupJ "fiscalDateEnding" kvs = none →
      lookupJ "fiscal_date_ending" kvs = none →
      mapIncomeStatementItem (.obj kvs) = .error (.missing "fiscalDateEnding") := by
  intro kvs h1 h2
  have hl : lookupAliased "fiscalDateEnding" "fiscal_date_ending" kvs = none := by
    simp [lookupAliased, h1, h2]
  have hf : reqStrF "fiscalDateEnding"
      (lookupAliased "fiscalDateEnding" "fiscal_date_ending" kvs) =
      .error (.missing "fiscalDateEnding") := by
    rw [hl]
    rfl
  simp only [mapIncomeStatementItem]
  rw [hf, exBind_error]

/-- C9 witness: the empty payload. -/
theorem C9_missing_required_field_witness :
    mapIncomeStatementItem (.obj []) = .error (.missing "fiscalDateEnding") :=
  C9_missing_required_field [] rfl rfl

/-- C10: with a valid interval, a supplied non-empty `month` routes the
dispatch to `TIME_SERIES_INTRADAY_EXTENDED` with `month` appended to the
assembled parameters, and an absent `month` routes to
`TIME_SERIES_INTRADAY` with exactly the same base parameters and no
`month` key. -/
theorem C10_month_dispatch :
    ∀ (symbol interval outputsize datatype : String) (adjusted extended_hours : Bool)
      (m : String),
      interval ∈ validIntervals →
      (m ≠ "" →
        get_time_series_intraday symbol interval adjusted extended_hours (some m) outputsize datatype =
          .ok ⟨"TIME_SERIES_INTRADAY_EXTENDED",
               intradayBaseParams symbol interval adjusted extended_hours outputsize datatype
                 ++ [("month", m)]⟩) ∧
      get_time_series_intraday symbol interval adjusted extended_hours none outputsize datatype =
        .ok ⟨"TIME_SERIES_INTRADAY",
             intradayBaseParams symbol interval adjusted extended_hours outputsize datatype⟩ := by
  intro symbol interval outputsize datatype adjusted extended_hours m h
  constructor
  · intro hm
    simp [get_time_series_intraday, h, hm]
  · simp [get_time_series_intraday, h]

/-- C10 witness: the dispatch at a concrete call with and without
`month = "2024-01"`. -/
theorem C10_month_dispatch_witness :
    get_time_series_intraday "IBM" "5min" true true (some "2024-01") "compact" "json" =
      .ok ⟨"TIME_SERIES_INTRADAY_EXTENDED",
           intradayBaseParams "IBM" "5min" true true "compact" "json" ++ [("month", "2024-01")]⟩ ∧
    get_time_series_intraday "IBM" "5min" true true none "compact" "json" =
      .ok ⟨"TIME_SERIES_INTRADAY",
           intradayBaseParams "IBM" "5min" true true "compact" "json"⟩ :=
  ⟨((C10_month_dispatch "IBM" "5min" "compact" "json" true true "2024-01") (by decide)).1
      (by decide),
   ((C10_month_dispatch "IBM" "5min" "compact" "json" true true "2024-01") (by decide)).2⟩
